import Mathlib

/-!
Verification of the skillbase API gateway's routing, forwarding and health
subsystem, shallowly embedded from the TypeScript source
(`api-gateway.controller.ts`, the proxy service and the health service).
Paths and URLs are modelled as `List Char`; the regex-based dual-scheme
routing, the forwarder's request/response translation and the health
aggregation are translated function by function.
-/

namespace Skillbase

/-- Ordered list of the six known service identifiers, in the order they
appear in the regex alternation `(identity|course|media|progress|reviews|indexer)`. -/
def serviceIds : List String :=
  ["identity", "course", "media", "progress", "reviews", "indexer"]

/-- Consume a literal character sequence from the front of a list, returning
the rest on success.  This models a regex alternative matching literally at the
current position. -/
def stripLeading : List Char → List Char → Option (List Char)
  | [], s => some s
  | _ :: _, [] => none
  | a :: as, b :: bs => if a = b then stripLeading as bs else none

/-- Try each service identifier in alternation order; the first identifier that
matches literally at the current position wins, the rest of the input becoming
the captured remainder, exactly as the JS regex alternation followed by
a greedy catch-all group behaves. -/
def matchService : List String → List Char → Option (String × List Char)
  | [], _ => none
  | name :: rest, s =>
    match stripLeading name.data s with
    | some rem => some (name, rem)
    | none => matchService rest s

/-- Model of the versioned route regex from `proxyRequest`, anchored at both ends:
a slash, the letter v, one or more digits, a slash, a known service identifier,
then an arbitrary remainder. -/
def versionedMatch (path : List Char) : Option (String × List Char) :=
  match path with
  | a :: b :: rest =>
    if a = '/' ∧ b = 'v' then
      let digits := rest.takeWhile Char.isDigit
      if digits = [] then none
      else
        match rest.drop digits.length with
        | c :: tail => if c = '/' then matchService serviceIds tail else none
        | [] => none
    else none
  | _ => none

/-- Model of the legacy route regex from `proxyRequest`: a slash, a known
service identifier, then an arbitrary remainder. -/
def legacyMatch (path : List Char) : Option (String × List Char) :=
  match path with
  | a :: tail => if a = '/' then matchService serviceIds tail else none
  | [] => none

/-- Model of the line computing the path handed to the forwarder:
`remainingPath ? remainingPath + queryString : (queryString || the slash path)`. -/
def finalPath (remainingPath queryString : List Char) : List Char :=
  if remainingPath ≠ [] then remainingPath ++ queryString
  else if queryString ≠ [] then queryString
  else ['/']

/-- Outcome of the catch-all route handler's path analysis. -/
inductive RouteResult
  | reserved
  | matched (service : String) (downstreamPath : List Char)
  | notFound (availableServices : List String)
deriving DecidableEq

/-- Model of the routing part of `proxyRequest` in the gateway controller:
reserved paths are skipped, then the versioned pattern is tried, then the
legacy pattern, and on failure the literal list of the six identifiers is
returned for the 404 body.  `query` is the raw query-string part of the
original URL (empty or starting with a question mark). -/
def proxyRoute (path query : List Char) : RouteResult :=
  if path = "/internal/health".data ∨ path = "/".data then .reserved
  else
    match versionedMatch path with
    | some sp => .matched sp.1 (finalPath sp.2 query)
    | none =>
      match legacyMatch path with
      | some sp => .matched sp.1 (finalPath sp.2 query)
      | none => .notFound serviceIds

theorem data_identity : "identity".data = ['i', 'd', 'e', 'n', 't', 'i', 't', 'y'] := rfl

theorem data_course : "course".data = ['c', 'o', 'u', 'r', 's', 'e'] := rfl

theorem data_media : "media".data = ['m', 'e', 'd', 'i', 'a'] := rfl

theorem data_progress : "progress".data = ['p', 'r', 'o', 'g', 'r', 'e', 's', 's'] := rfl

theorem data_reviews : "reviews".data = ['r', 'e', 'v', 'i', 'e', 'w', 's'] := rfl

theorem data_indexer : "indexer".data = ['i', 'n', 'd', 'e', 'x', 'e', 'r'] := rfl

theorem data_health_path :
    "/internal/health".data =
      ['/', 'i', 'n', 't', 'e', 'r', 'n', 'a', 'l', '/', 'h', 'e', 'a', 'l', 't', 'h'] := rfl

theorem data_root_path : "/".data = ['/'] := rfl

/-- Matching the identifier list against a known identifier followed by any
remainder captures exactly that identifier and that remainder; no identifier is
a prefix of another, so the alternation is unambiguous. -/
theorem matchService_eq (S : String) (hS : S ∈ serviceIds) (P : List Char) :
    matchService serviceIds (S.data ++ P) = some (S, P) := by
  fin_cases hS <;>
    simp [serviceIds, matchService, stripLeading,
      data_identity, data_course, data_media, data_progress, data_reviews, data_indexer]

/-- A maximal digit run followed by a slash is exactly what the greedy digit
group captures. -/
theorem takeWhile_digits (xs ys : List Char) (h : ∀ c ∈ xs, c.isDigit = true) :
    (xs ++ '/' :: ys).takeWhile Char.isDigit = xs := by
  induction xs with
  | nil => simp
  | cons a as ih =>
    simp only [List.cons_append, List.takeWhile_cons]
    rw [h a (by simp)]
    simp [ih fun c hc => h c (by simp [hc])]

/-- The legacy pattern resolves a slash followed by a known identifier and any
remainder to that identifier and remainder. -/
theorem legacyMatch_eq (S : String) (hS : S ∈ serviceIds) (P : List Char) :
    legacyMatch ('/' :: (S.data ++ P)) = some (S, P) := by
  simp [legacyMatch, matchService_eq S hS P]

/-- The versioned pattern fails on a legacy-shaped path, whose second character
is the first character of a service identifier, never the letter v. -/
theorem versionedMatch_legacy_none (S : String) (hS : S ∈ serviceIds) (P : List Char) :
    versionedMatch ('/' :: (S.data ++ P)) = none := by
  fin_cases hS <;>
    simp [versionedMatch, data_identity, data_course, data_media,
      data_progress, data_reviews, data_indexer]

/-- The versioned pattern resolves a versioned-shaped path to the identifier
and remainder after the version segment. -/
theorem versionedMatch_eq (S : String) (hS : S ∈ serviceIds)
    (digits P : List Char) (hne : digits ≠ []) (hdig : ∀ c ∈ digits, c.isDigit = true) :
    versionedMatch ('/' :: 'v' :: (digits ++ '/' :: (S.data ++ P))) = some (S, P) := by
  simp only [versionedMatch]
  rw [if_pos (by simp)]
  rw [takeWhile_digits digits (S.data ++ P) hdig]
  rw [if_neg hne]
  rw [List.drop_left]
  simp [matchService_eq S hS P]

/-- A legacy-shaped service path is never one of the two reserved paths. -/
theorem legacy_not_reserved (S : String) (hS : S ∈ serviceIds) (P : List Char) :
    ¬('/' :: (S.data ++ P) = "/internal/health".data ∨ '/' :: (S.data ++ P) = "/".data) := by
  fin_cases hS <;>
    simp [data_health_path, data_root_path, data_identity, data_course, data_media,
      data_progress, data_reviews, data_indexer]

/-- A versioned-shaped service path is never one of the two reserved paths. -/
theorem versioned_not_reserved (rest : List Char) :
    ¬('/' :: 'v' :: rest = "/internal/health".data ∨ '/' :: 'v' :: rest = "/".data) := by
  simp [data_health_path, data_root_path]

/-- JSON-capable value, modelling the untyped payloads crossing the proxy
boundary (request bodies, response bodies, query parameter values). -/
inductive Json
  | null
  | bool (b : Bool)
  | num (n : Int)
  | str (s : String)
  | arr (xs : List Json)
  | obj (fields : List (String × Json))

/-- JavaScript truthiness of a JSON value: null, false, zero and the empty
string are falsy; arrays and objects are always truthy. -/
def Json.truthy : Json → Bool
  | .null => false
  | .bool b => b
  | .num n => n != 0
  | .str s => s != ""
  | .arr _ => true
  | .obj _ => true

/-- Truthiness of an optional body, with an absent body falsy. -/
def bodyTruthy : Option Json → Bool
  | none => false
  | some b => b.truthy

/-- First field of a JSON object with the given key, modelling JS property
access on an object literal. -/
def lookupField : List (String × Json) → String → Option Json
  | [], _ => none
  | kv :: rest, k => if kv.1 = k then some kv.2 else lookupField rest k

/-- A downstream response header value as the transport delivers it: a single
string or a list of strings for multi-valued headers. -/
inductive HeaderValue
  | str (s : String)
  | list (l : List String)
deriving DecidableEq

/-- Model of the header conversion loop in the proxy service: string values
are kept, a non-empty list is replaced by its first element, anything else is
dropped. -/
def convertHeaders (hs : List (String × HeaderValue)) : List (String × String) :=
  hs.filterMap fun kv =>
    match kv.2 with
    | .str s => some (kv.1, s)
    | .list (x :: _) => some (kv.1, x)
    | .list [] => none

/-- The literal exclusion list from `forwardRequest` in the gateway controller. -/
def headersToExclude : List String := ["content-encoding", "transfer-encoding", "connection"]

/-- ASCII lowercasing of a string, character by character, modelling the JS
toLowerCase call on method names and header keys. -/
def toLowerStr (s : String) : String := ⟨s.data.map Char.toLower⟩

/-- Model of the relay loop in `forwardRequest`: every proxied response header
whose lowercased key is not in the exclusion list is set on the caller
response. -/
def relayHeaders (hs : List (String × String)) : List (String × String) :=
  hs.filter fun kv => !(headersToExclude.contains (toLowerStr kv.1))

/-- Outbound request configuration built by `proxyRequest` in the proxy
service, before the HTTP client adds its own URL/parameter handling. -/
structure RequestConfig where
  method : String
  url : List Char
  headers : List (String × String)
  params : Option (List (String × Json))
  data : Option Json

/-- Model of the config construction in `proxyRequest`: the URL is the service
base URL concatenated with the path, the outbound Content-Type is forced to
JSON, query parameters are attached only when non-empty, and a body is
attached only when it is truthy and the lowercased method is post, put or
patch. -/
def buildConfig (serviceUrl path : List Char) (method : String) (body : Option Json)
    (headers : List (String × String)) (query : List (String × Json)) : RequestConfig :=
  ⟨toLowerStr method,
   serviceUrl ++ path,
   headers ++ [("Content-Type", "application/json")],
   if query.length > 0 then some query else none,
   if bodyTruthy body && ["post", "put", "patch"].contains (toLowerStr method) then body
   else none⟩

/-- Scalar query parameter rendering used by the parameter serializer model. -/
def paramValueChars : Json → List Char
  | .str s => s.data
  | .num n => (toString n).data
  | .bool b => (toString b).data
  | _ => []

/-- Model of the HTTP client's parameter serializer: key=value pairs joined
with ampersands. -/
def serializeParams : List (String × Json) → List Char
  | [] => []
  | [kv] => kv.1.data ++ '=' :: paramValueChars kv.2
  | kv :: rest => kv.1.data ++ '=' :: paramValueChars kv.2 ++ '&' :: serializeParams rest

/-- Model of the HTTP client's URL building: when params are present, the
serialized params are appended after a question mark, or after an ampersand if
the URL already contains a question mark. -/
def outboundUrl (c : RequestConfig) : List Char :=
  match c.params with
  | none => c.url
  | some ps => c.url ++ (if c.url.contains '?' then ['&'] else ['?']) ++ serializeParams ps

/-- Outcome of the outbound HTTP exchange as the client library reports it:
a resolved response (the validator accepts only 2xx final statuses), a
rejection that still carries the downstream response (any other final status),
or a rejection with no response at all (connection refused, DNS failure,
timeout). -/
inductive DownstreamOutcome
  | response (status : Nat) (body : Json) (headers : List (String × HeaderValue))
  | httpError (status : Nat) (body : Json) (message : String)
  | networkError (message : String)

/-- Typed error thrown by the proxy service: a response payload and an HTTP
status, as in the framework's HttpException. -/
structure HttpErr where
  response : Json
  status : Nat

/-- Result relayed by the proxy service on a successful exchange. -/
structure ProxyResponse where
  data : Json
  status : Nat
  headers : List (String × String)

/-- Model of `proxyRequest` in the proxy service: resolve the base URL (an
unknown service fails with 404), then translate the downstream outcome — a
resolved response is relayed with converted headers; a rejection carrying a
response is rethrown with the downstream body (or, when that body is falsy,
the client error message) and the downstream status (or 500 when falsy); a
rejection without a response becomes a 502 whose message names the service and
the underlying cause.  The outcome argument stands for the network's answer to
the outbound call built by `buildConfig`. -/
def proxyRequest (routes : String → Option (List Char)) (serviceName : String)
    (outcome : DownstreamOutcome) : Except HttpErr ProxyResponse :=
  match routes serviceName with
  | none => .error ⟨Json.str ("Service " ++ serviceName ++ " not found"), 404⟩
  | some _ =>
    match outcome with
    | .response st data hs => .ok ⟨data, st, convertHeaders hs⟩
    | .httpError st data msg =>
        .error ⟨if data.truthy then data else Json.str msg,
                if st = 0 then 500 else st⟩
    | .networkError msg =>
        .error ⟨Json.str ("Failed to connect to " ++ serviceName ++ " service: " ++ msg),
                502⟩

/-- Message carried by an HttpException, as the framework derives it from the
exception payload: a string payload is the message itself; an object payload
contributes its string-valued message field; anything else falls back to the
exception class name written as words. -/
def exceptionMessage (response : Json) : String :=
  match response with
  | .str s => s
  | .obj fields =>
      match lookupField fields "message" with
      | some (Json.str s) => s
      | _ => "Http Exception"
  | _ => "Http Exception"

/-- Response finally delivered to the caller by the gateway controller. -/
structure CallerResponse where
  status : Nat
  body : Json
  headers : List (String × String)

/-- Model of `forwardRequest` in the gateway controller: on success the
downstream status and body are relayed with the exclusion-filtered headers; on
a thrown error the controller answers with the error status (500 when falsy)
and a JSON object holding statusCode, message, timestamp and the request
path. -/
def forwardRequest (routes : String → Option (List Char)) (serviceName : String)
    (outcome : DownstreamOutcome) (now reqUrl : String) : CallerResponse :=
  match proxyRequest routes serviceName outcome with
  | .ok r => ⟨r.status, r.data, relayHeaders r.headers⟩
  | .error e =>
      let st := if e.status = 0 then 500 else e.status
      let m := exceptionMessage e.response
      let msg := if m = "" then "Internal server error" else m
      ⟨st,
       Json.obj [("statusCode", Json.num st), ("message", Json.str msg),
                 ("timestamp", Json.str now), ("path", Json.str reqUrl)],
       []⟩

/-- Outcome of one bounded-timeout probe issued by `checkServiceHealth`: the
client resolves only for a 2xx final status and rejects on any error,
timeout or non-2xx status. -/
inductive ProbeOutcome
  | ok (status : Nat)
  | failed
deriving DecidableEq

/-- Model of `checkServiceHealth` in the proxy service: an unknown service is
unhealthy; otherwise the health path is probed first and, only if that probe
rejects, the root path is probed; the result is true exactly when the probe
that resolved carries status 200. -/
def checkServiceHealth (routes : String → Option (List Char)) (serviceName : String)
    (healthProbe rootProbe : ProbeOutcome) : Bool :=
  match routes serviceName with
  | none => false
  | some _ =>
    match healthProbe with
    | .ok s => s == 200
    | .failed =>
      match rootProbe with
      | .ok s => s == 200
      | .failed => false

/-- Two-valued per-target status domain. -/
inductive SubStatus
  | healthy
  | unhealthy
deriving DecidableEq

/-- Test for the unhealthy status, modelling the string comparison in the
aggregation fold. -/
def SubStatus.isUnhealthy : SubStatus → Bool
  | .unhealthy => true
  | .healthy => false

/-- Three-valued overall status domain declared by the health document. -/
inductive OverallStatus
  | healthy
  | unhealthy
  | degraded
deriving DecidableEq

/-- Per-service health entry of the health document. -/
structure ServiceHealth where
  status : SubStatus
  responseTime : Option Nat
  lastChecked : String
  uptime : Option Nat
  error : Option String

/-- Per-infrastructure health entry of the health document. -/
structure InfrastructureHealth where
  status : SubStatus
  responseTime : Option Nat
  lastChecked : String
  error : Option String
  details : Option (List (String × Json))

/-- Aggregated health document. -/
structure HealthStatus where
  status : OverallStatus
  timestamp : String
  uptime : Nat
  services : List (String × ServiceHealth)
  infrastructure : List (String × InfrastructureHealth)

/-- Model of `getHealthStatus` in the health service: the per-service and
per-infrastructure statuses are collected, and the overall status starts as
healthy and becomes unhealthy exactly when some collected status is unhealthy;
no branch ever assigns degraded. -/
def getHealthStatus (timestamp : String) (uptime : Nat)
    (services : List (String × ServiceHealth))
    (infrastructure : List (String × InfrastructureHealth)) : HealthStatus :=
  let allServiceStatuses := services.map fun kv => kv.2.status
  let allInfraStatuses := infrastructure.map fun kv => kv.2.status
  let allStatuses := allServiceStatuses ++ allInfraStatuses
  let overallStatus :=
    if allStatuses.any SubStatus.isUnhealthy then OverallStatus.unhealthy
    else OverallStatus.healthy
  ⟨overallStatus, timestamp, uptime, services, infrastructure⟩

/-- Per-service uptime tracker entry: tracker start time and last observed
healthy time. -/
structure UptimeEntry where
  startTime : Nat
  lastHealthy : Nat
deriving DecidableEq

/-- Model of the uptime mutation in `checkService` in the health service: on a
healthy result the entry for that service (when present) gets its lastHealthy
field set to the current time; on an unhealthy result nothing is written. -/
def updateUptimes (uptimes : List (String × UptimeEntry)) (serviceName : String)
    (isHealthy : Bool) (now : Nat) : List (String × UptimeEntry) :=
  if isHealthy then
    uptimes.map fun kv =>
      if kv.1 = serviceName then (kv.1, ⟨kv.2.startTime, now⟩) else kv
  else uptimes

/-- C1 (amended): for every service identifier S, numeric version segment and
remainder P, both the versioned path and the legacy path resolve to
(S, finalPath P query), where finalPath appends the raw query string to a
non-empty remainder, maps an empty remainder to the query string alone when the
query is non-empty, and to the single-slash path only when the query is also
empty; the versioned pattern is tried before the legacy pattern. -/
theorem c1_dual_scheme_routing (S : String) (hS : S ∈ serviceIds)
    (digits P query : List Char) (hne : digits ≠ [])
    (hdig : ∀ c ∈ digits, c.isDigit = true) :
    proxyRoute ('/' :: 'v' :: (digits ++ '/' :: (S.data ++ P))) query
        = .matched S (finalPath P query) ∧
    proxyRoute ('/' :: (S.data ++ P)) query = .matched S (finalPath P query) := by
  constructor
  · simp only [proxyRoute]
    rw [if_neg (versioned_not_reserved _)]
    rw [versionedMatch_eq S hS digits P hne hdig]
  · simp only [proxyRoute]
    rw [if_neg (legacy_not_reserved S hS P)]
    rw [versionedMatch_legacy_none S hS P, legacyMatch_eq S hS P]

/-- Witness for C1: the versioned and legacy forms of an identity-service path
with a remainder and a query string both resolve as the theorem states. -/
theorem c1_dual_scheme_routing_witness :
    proxyRoute ('/' :: 'v' :: (['1'] ++ '/' :: ("identity".data ++ "/x".data))) "?a=1".data
        = .matched "identity" (finalPath "/x".data "?a=1".data) ∧
    proxyRoute ('/' :: ("identity".data ++ "/x".data)) "?a=1".data
        = .matched "identity" (finalPath "/x".data "?a=1".data) :=
  c1_dual_scheme_routing "identity" (by decide) ['1'] "/x".data "?a=1".data
    (by decide) (by decide)

/-- Counterexample to C1 as stated: with an empty remainder and a non-empty
query string, the path handed to the forwarder is the query string alone, not
the normalized slash path with the query appended. -/
theorem c1_counterexample :
    proxyRoute "/identity".data "?a=1".data ≠ RouteResult.matched "identity" "/?a=1".data ∧
    proxyRoute "/identity".data "?a=1".data = RouteResult.matched "identity" "?a=1".data := by
  decide

/-- The path handed to the forwarder starts with a slash whenever the matched
remainder begins with a slash, or the remainder and the query string are both
empty. -/
theorem finalPath_head (rem query : List Char)
    (h : rem.head? = some '/' ∨ (rem = [] ∧ query = [])) :
    (finalPath rem query).head? = some '/' := by
  rcases h with h | ⟨h1, h2⟩
  · rcases rem with _ | ⟨c, cs⟩
    · simp at h
    · simp at h
      subst h
      simp [finalPath]
  · subst h1
    subst h2
    simp [finalPath]

/-- C8 (amended): for every inbound path the Router resolves — through the
versioned pattern or the legacy pattern — the produced downstream path starts
with a slash whenever the matched remainder begins with a slash, or the
remainder and the query string are both empty; a remainder that does not
begin with a slash (or an empty remainder with a non-empty query) is passed
through without one. -/
theorem c8_downstream_path_slash (S : String) (hS : S ∈ serviceIds)
    (digits rem query : List Char) (hne : digits ≠ [])
    (hdig : ∀ c ∈ digits, c.isDigit = true)
    (h : rem.head? = some '/' ∨ (rem = [] ∧ query = [])) :
    (∃ d, proxyRoute ('/' :: 'v' :: (digits ++ '/' :: (S.data ++ rem))) query
        = .matched S d ∧ d.head? = some '/') ∧
    (∃ d, proxyRoute ('/' :: (S.data ++ rem)) query = .matched S d ∧
        d.head? = some '/') := by
  have hd : (finalPath rem query).head? = some '/' := finalPath_head rem query h
  constructor
  · refine ⟨finalPath rem query, ?_, hd⟩
    simp only [proxyRoute]
    rw [if_neg (versioned_not_reserved _)]
    rw [versionedMatch_eq S hS digits rem hne hdig]
  · refine ⟨finalPath rem query, ?_, hd⟩
    simp only [proxyRoute]
    rw [if_neg (legacy_not_reserved S hS rem)]
    rw [versionedMatch_legacy_none S hS rem, legacyMatch_eq S hS rem]

/-- Witness for C8: a slash-initial remainder yields a slash-initial
downstream path under both the versioned and the legacy scheme. -/
theorem c8_downstream_path_slash_witness :
    (∃ d, proxyRoute ('/' :: 'v' :: (['1'] ++ '/' :: ("identity".data ++ "/x".data))) []
        = .matched "identity" d ∧ d.head? = some '/') ∧
    (∃ d, proxyRoute ('/' :: ("identity".data ++ "/x".data)) [] = .matched "identity" d ∧
        d.head? = some '/') :=
  c8_downstream_path_slash "identity" (by decide) ['1'] "/x".data []
    (by decide) (by decide) (by decide)

/-- Counterexample to C8 as stated: the legacy pattern matches a path where the
identifier is not followed by a slash, and the resulting downstream path does
not start with a slash. -/
theorem c8_counterexample :
    proxyRoute "/identityfoo".data [] = RouteResult.matched "identity" "foo".data ∧
    ("foo".data).head? ≠ some '/' := by
  decide

theorem isUnhealthy_iff (s : SubStatus) :
    s.isUnhealthy = true ↔ s = SubStatus.unhealthy := by
  cases s <;> simp [SubStatus.isUnhealthy]

/-- The status field of the aggregated document is the two-way fold over the
collected sub-statuses. -/
theorem getHealthStatus_status (ts : String) (up : Nat)
    (services : List (String × ServiceHealth))
    (infrastructure : List (String × InfrastructureHealth)) :
    (getHealthStatus ts up services infrastructure).status =
      if ((services.map fun kv => kv.2.status) ++
          (infrastructure.map fun kv => kv.2.status)).any SubStatus.isUnhealthy
      then OverallStatus.unhealthy else OverallStatus.healthy := rfl

/-- The aggregation fold detects an unhealthy entry exactly when one of the
service or infrastructure entries is unhealthy. -/
theorem anyUnhealthy_iff (services : List (String × ServiceHealth))
    (infrastructure : List (String × InfrastructureHealth)) :
    (((services.map fun kv => kv.2.status) ++
        (infrastructure.map fun kv => kv.2.status)).any SubStatus.isUnhealthy = true) ↔
      ((∃ kv ∈ services, kv.2.status = SubStatus.unhealthy) ∨
       (∃ kv ∈ infrastructure, kv.2.status = SubStatus.unhealthy)) := by
  simp [List.any_eq_true, isUnhealthy_iff]

/-- C2: the overall status of the aggregated health document is unhealthy
exactly when at least one tracked sub-status is unhealthy, it is healthy when
all sub-statuses are healthy, and the degraded value is never produced. -/
theorem c2_overall_status (ts : String) (up : Nat)
    (services : List (String × ServiceHealth))
    (infrastructure : List (String × InfrastructureHealth)) :
    ((getHealthStatus ts up services infrastructure).status = OverallStatus.unhealthy ↔
      ((∃ kv ∈ services, kv.2.status = SubStatus.unhealthy) ∨
       (∃ kv ∈ infrastructure, kv.2.status = SubStatus.unhealthy))) ∧
    (getHealthStatus ts up services infrastructure).status ≠ OverallStatus.degraded ∧
    ((∀ kv ∈ services, kv.2.status = SubStatus.healthy) →
     (∀ kv ∈ infrastructure, kv.2.status = SubStatus.healthy) →
     (getHealthStatus ts up services infrastructure).status = OverallStatus.healthy) := by
  refine ⟨?_, ?_, ?_⟩
  · rw [getHealthStatus_status, ← anyUnhealthy_iff services infrastructure]
    cases h : ((services.map fun kv => kv.2.status) ++
        (infrastructure.map fun kv => kv.2.status)).any SubStatus.isUnhealthy <;> simp [h]
  · rw [getHealthStatus_status]
    cases h : ((services.map fun kv => kv.2.status) ++
        (infrastructure.map fun kv => kv.2.status)).any SubStatus.isUnhealthy <;> simp [h]
  · intro h1 h2
    rw [getHealthStatus_status]
    have hfalse : ¬(((services.map fun kv => kv.2.status) ++
        (infrastructure.map fun kv => kv.2.status)).any SubStatus.isUnhealthy = true) := by
      rw [anyUnhealthy_iff]
      rintro (⟨kv, hm, hu⟩ | ⟨kv, hm, hu⟩)
      · rw [h1 kv hm] at hu
        exact absurd hu (by simp)
      · rw [h2 kv hm] at hu
        exact absurd hu (by simp)
    simp [hfalse]

/-- Witness for C2: an aggregation over six healthy services and six healthy
infrastructure targets yields an overall healthy document. -/
theorem c2_overall_status_witness :
    (getHealthStatus ("t") 0
      [("identity", ⟨SubStatus.healthy, none, "", none, none⟩),
       ("course", ⟨SubStatus.healthy, none, "", none, none⟩),
       ("media", ⟨SubStatus.healthy, none, "", none, none⟩),
       ("progress", ⟨SubStatus.healthy, none, "", none, none⟩),
       ("reviews", ⟨SubStatus.healthy, none, "", none, none⟩),
       ("indexer", ⟨SubStatus.healthy, none, "", none, none⟩)]
      [("postgresql", ⟨SubStatus.healthy, none, "", none, none⟩),
       ("mongodb", ⟨SubStatus.healthy, none, "", none, none⟩),
       ("redis", ⟨SubStatus.healthy, none, "", none, none⟩),
       ("meilisearch", ⟨SubStatus.healthy, none, "", none, none⟩),
       ("minio", ⟨SubStatus.healthy, none, "", none, none⟩),
       ("rabbitmq", ⟨SubStatus.healthy, none, "", none, none⟩)]).status =
      OverallStatus.healthy :=
  (c2_overall_status ("t") 0 _ _).2.2
    (by intro kv hm; fin_cases hm <;> rfl)
    (by intro kv hm; fin_cases hm <;> rfl)

/-- Message that ends up in the caller-facing error object for an upstream
error: derived from the downstream body when truthy, otherwise from the client
error message, through the exception message derivation. -/
def upstreamErrorMessage (data : Json) (msg : String) : String :=
  let m := exceptionMessage (if data.truthy then data else Json.str msg)
  if m = "" then "Internal server error" else m

/-- C3 (amended): a downstream non-2xx/3xx response is relayed with the
downstream status code, but its body is not passed through unchanged — the
caller receives a JSON error object with statusCode, message, timestamp and
path, whose message is derived from the downstream body: the body itself when
it is a non-empty string, its message field when it is an object with a
non-empty string message, and a generic text otherwise. -/
theorem c3_upstream_error_relay (routes : String → Option (List Char))
    (serviceName : String) (u : List Char) (st : Nat) (data : Json) (msg : String)
    (now reqUrl : String) (hroute : routes serviceName = some u) (hst : st ≠ 0) :
    (forwardRequest routes serviceName (.httpError st data msg) now reqUrl).status = st ∧
    (forwardRequest routes serviceName (.httpError st data msg) now reqUrl).body =
      Json.obj [("statusCode", Json.num st),
                ("message", Json.str (upstreamErrorMessage data msg)),
                ("timestamp", Json.str now), ("path", Json.str reqUrl)] ∧
    (∀ s, data = Json.str s → s ≠ "" → upstreamErrorMessage data msg = s) ∧
    (∀ fl s, data = Json.obj fl → lookupField fl ("message") = some (Json.str s) →
      s ≠ "" → upstreamErrorMessage data msg = s) := by
  refine ⟨?_, ?_, ?_, ?_⟩
  · simp [forwardRequest, proxyRequest, hroute, hst]
  · simp [forwardRequest, proxyRequest, hroute, hst, upstreamErrorMessage]
  · intro s hdata hs
    subst hdata
    simp [upstreamErrorMessage, Json.truthy, exceptionMessage, hs]
  · intro fl s hdata hlook hs
    subst hdata
    simp [upstreamErrorMessage, Json.truthy, exceptionMessage, hlook, hs]

/-- Witness for C3: a downstream 404 with a string body is answered with
status 404 and that string as the error message. -/
theorem c3_upstream_error_relay_witness :
    (forwardRequest (fun _ => some ['u']) ("identity")
        (.httpError 404 (Json.str "missing") "Request failed with status code 404")
        ("T") ("/identity/x")).status = 404 :=
  (c3_upstream_error_relay (fun _ => some ['u']) ("identity") ['u'] 404
    (Json.str "missing") ("Request failed with status code 404") ("T") ("/identity/x")
    rfl (by decide)).1

/-- Counterexample to C3 as stated: a downstream 404 whose body is an object
without a message field reaches the caller with status 404 but with a
rewrapped body carrying a generic message, not the downstream body. -/
theorem c3_counterexample :
    (forwardRequest (fun _ => some ['u']) ("identity")
        (.httpError 404 (Json.obj [("error", Json.str "nope")])
          "Request failed with status code 404") ("T") ("/identity/x")).status = 404 ∧
    (forwardRequest (fun _ => some ['u']) ("identity")
        (.httpError 404 (Json.obj [("error", Json.str "nope")])
          "Request failed with status code 404") ("T") ("/identity/x")).body ≠
      Json.obj [("error", Json.str "nope")] := by
  constructor
  · rfl
  · simp [forwardRequest, proxyRequest, exceptionMessage, lookupField, Json.truthy]

/-- C4 (amended): for a registered service, the health path is probed first
and the root path is probed only when that first probe rejects; the check is
healthy exactly when the probe that resolved returned status 200 (a 2xx
status other than 200 resolves but is reported unhealthy), and every failure
is absorbed into an unhealthy result. -/
theorem c4_health_probe_200 (routes : String → Option (List Char))
    (serviceName : String) (u : List Char) (healthProbe rootProbe : ProbeOutcome)
    (hroute : routes serviceName = some u) :
    checkServiceHealth routes serviceName healthProbe rootProbe = true ↔
      (healthProbe = .ok 200 ∨ (healthProbe = .failed ∧ rootProbe = .ok 200)) := by
  simp only [checkServiceHealth, hroute]
  cases healthProbe with
  | ok s => simp
  | failed => cases rootProbe with
    | ok s => simp
    | failed => simp

/-- Witness for C4: a rejected health probe followed by a 200 root probe is
healthy. -/
theorem c4_health_probe_200_witness :
    checkServiceHealth (fun _ => some ['u']) ("media") .failed (.ok 200) = true :=
  (c4_health_probe_200 (fun _ => some ['u']) ("media") ['u'] .failed (.ok 200) rfl).mpr
    (Or.inr ⟨rfl, rfl⟩)

/-- Counterexample to C4 as stated: a health probe resolving with the 2xx
status 201 is reported unhealthy, although the claim requires healthy for any
2xx status. -/
theorem c4_counterexample :
    checkServiceHealth (fun _ => some ['u']) ("identity") (.ok 201) .failed = false ∧
    200 ≤ 201 ∧ 201 < 300 := by
  constructor
  · rfl
  · exact ⟨by decide, by decide⟩

/-- C5: when the outbound call cannot complete at all, the caller receives
status 502 — never 200 — with an error message naming the service and the
underlying failure reason. -/
theorem c5_network_failure_502 (routes : String → Option (List Char))
    (serviceName : String) (u : List Char) (reason now reqUrl : String)
    (hroute : routes serviceName = some u) :
    (forwardRequest routes serviceName (.networkError reason) now reqUrl).status = 502 ∧
    (forwardRequest routes serviceName (.networkError reason) now reqUrl).status ≠ 200 ∧
    (forwardRequest routes serviceName (.networkError reason) now reqUrl).body =
      Json.obj [("statusCode", Json.num 502),
                ("message",
                  Json.str ("Failed to connect to " ++ serviceName ++ " service: " ++ reason)),
                ("timestamp", Json.str now), ("path", Json.str reqUrl)] := by
  have hm : ("Failed to connect to " ++ serviceName ++ " service: " ++ reason) ≠ "" := by
    intro hc
    have hlen := congrArg String.length hc
    rw [String.length_append, String.length_append, String.length_append] at hlen
    have h1 : ("Failed to connect to ").length = 21 := rfl
    have h2 : (" service: ").length = 10 := rfl
    have h3 : ("").length = 0 := rfl
    omega
  refine ⟨?_, ?_, ?_⟩ <;>
    simp [forwardRequest, proxyRequest, hroute, exceptionMessage, hm]

/-- Witness for C5: a DNS failure against the course service surfaces as a
502. -/
theorem c5_network_failure_502_witness :
    (forwardRequest (fun _ => some ['u']) ("course")
        (.networkError "getaddrinfo ENOTFOUND course-service") ("T") ("/course/1")).status
      = 502 :=
  (c5_network_failure_502 (fun _ => some ['u']) ("course") ['u']
    ("getaddrinfo ENOTFOUND course-service") ("T") ("/course/1") rfl).1

/-- Well-formedness of a transport header value: a string, or a non-empty
list for a multi-valued header. -/
def goodHeaderValue : HeaderValue → Bool
  | .str _ => true
  | .list l => !l.isEmpty

/-- First value of a transport header value. -/
def firstHeaderValue : HeaderValue → String
  | .str s => s
  | .list l => l.headD ""

/-- Converting then exclusion-filtering the downstream headers keeps exactly
the non-excluded headers, each at its first value. -/
theorem relay_convert_eq (hs : List (String × HeaderValue))
    (hgood : ∀ kv ∈ hs, goodHeaderValue kv.2 = true) :
    relayHeaders (convertHeaders hs) =
      (hs.filter fun kv => !(headersToExclude.contains (toLowerStr kv.1))).map
        (fun kv => (kv.1, firstHeaderValue kv.2)) := by
  induction hs with
  | nil => rfl
  | cons kv rest ih =>
    have hgkv := hgood kv (List.mem_cons_self _ _)
    have ihh := ih fun x hx => hgood x (List.mem_cons_of_mem _ hx)
    rcases kv with ⟨k, v⟩
    cases v with
    | str s =>
      by_cases he : toLowerStr k ∈ headersToExclude
      · simp [convertHeaders, relayHeaders, List.filter_cons, he] at ihh ⊢
        exact ihh
      · simp [convertHeaders, relayHeaders, List.filter_cons, he,
          firstHeaderValue] at ihh ⊢
        exact ihh
    | list l =>
      cases l with
      | nil => simp [goodHeaderValue, List.isEmpty] at hgkv
      | cons x xs =>
        by_cases he : toLowerStr k ∈ headersToExclude
        · simp [convertHeaders, relayHeaders, List.filter_cons, he] at ihh ⊢
          exact ihh
        · simp [convertHeaders, relayHeaders, List.filter_cons, he,
            firstHeaderValue] at ihh ⊢
          exact ihh

/-- C6: the headers relayed to the caller are exactly the downstream response
headers minus the case-insensitively excluded keys content-encoding,
transfer-encoding and connection; every other header passes through, a
list-valued header as its first value. -/
theorem c6_header_relay (routes : String → Option (List Char))
    (serviceName : String) (u : List Char) (st : Nat) (body : Json)
    (hs : List (String × HeaderValue)) (now reqUrl : String)
    (hroute : routes serviceName = some u)
    (hgood : ∀ kv ∈ hs, goodHeaderValue kv.2 = true) :
    (forwardRequest routes serviceName (.response st body hs) now reqUrl).headers =
      (hs.filter fun kv => !(headersToExclude.contains (toLowerStr kv.1))).map
        (fun kv => (kv.1, firstHeaderValue kv.2)) := by
  have h := relay_convert_eq hs hgood
  simp only [forwardRequest, proxyRequest, hroute]
  exact h

/-- Witness for C6: a response carrying a content type, a request id, a
multi-valued cookie header and a content-encoding header relays everything
except the excluded content-encoding key. -/
theorem c6_header_relay_witness :
    (forwardRequest (fun _ => some ['u']) ("identity")
        (.response 200 Json.null
          [("Content-Type", HeaderValue.str "application/json"),
           ("x-request-id", HeaderValue.str "abc"),
           ("set-cookie", HeaderValue.list ["a=1", "b=2"]),
           ("Content-Encoding", HeaderValue.str "gzip")]) ("T") ("/identity/x")).headers =
      ([("Content-Type", HeaderValue.str "application/json"),
        ("x-request-id", HeaderValue.str "abc"),
        ("set-cookie", HeaderValue.list ["a=1", "b=2"]),
        ("Content-Encoding", HeaderValue.str "gzip")].filter
          fun kv => !(headersToExclude.contains (toLowerStr kv.1))).map
        (fun kv => (kv.1, firstHeaderValue kv.2)) :=
  c6_header_relay (fun _ => some ['u']) ("identity") ['u'] 200 Json.null
    [("Content-Type", HeaderValue.str "application/json"),
     ("x-request-id", HeaderValue.str "abc"),
     ("set-cookie", HeaderValue.list ["a=1", "b=2"]),
     ("Content-Encoding", HeaderValue.str "gzip")] ("T") ("/identity/x")
    rfl (by decide)

/-- C7 (amended): the outbound call carries a body exactly when the lowercased
method is post, put or patch and a truthy body was supplied; a supplied falsy
body (null, false, zero or the empty string) is treated as absent, and for
get and delete no body is ever attached. -/
theorem buildConfig_data (serviceUrl path : List Char) (method : String)
    (body : Option Json) (headers : List (String × String))
    (query : List (String × Json)) :
    (buildConfig serviceUrl path method body headers query).data =
      if bodyTruthy body && ["post", "put", "patch"].contains (toLowerStr method)
      then body else none := rfl

/-- C7 (amended, main statement): the outbound call carries a body exactly
when the lowercased method is post, put or patch and a truthy body was
supplied; a supplied falsy body (null, false, zero or the empty string) is
treated as absent, and for get and delete no body is ever attached. -/
theorem c7_body_gating (serviceUrl path : List Char) (method : String)
    (body : Option Json) (headers : List (String × String))
    (query : List (String × Json)) :
    ((buildConfig serviceUrl path method body headers query).data = body ∨
     (buildConfig serviceUrl path method body headers query).data = none) ∧
    ((buildConfig serviceUrl path method body headers query).data.isSome = true ↔
      (bodyTruthy body = true ∧ toLowerStr method ∈ ["post", "put", "patch"])) ∧
    ((toLowerStr method = "get" ∨ toLowerStr method = "delete") →
      (buildConfig serviceUrl path method body headers query).data = none) := by
  cases hb : bodyTruthy body && ["post", "put", "patch"].contains (toLowerStr method)
  · have hb' : ¬(bodyTruthy body = true ∧ toLowerStr method ∈ ["post", "put", "patch"]) := by
      rintro ⟨h1, h2⟩
      rw [Bool.and_eq_false_iff] at hb
      rcases hb with hb | hb
      · rw [h1] at hb
        exact absurd hb (by simp)
      · simp at h2
        rcases h2 with h2 | h2 | h2 <;> rw [h2] at hb <;> simp at hb
    refine ⟨Or.inr ?_, ?_, fun _ => ?_⟩
    · rw [buildConfig_data, hb]
      simp
    · rw [buildConfig_data, hb]
      exact iff_of_false (by simp) hb'
    · rw [buildConfig_data, hb]
      simp
  · rw [Bool.and_eq_true] at hb
    obtain ⟨hb1, hb2⟩ := hb
    have hmem : toLowerStr method ∈ ["post", "put", "patch"] := by
      simp only [List.contains] at hb2
      simpa using hb2
    obtain ⟨b, rfl⟩ : ∃ b, body = some b := by
      cases body with
      | none => simp [bodyTruthy] at hb1
      | some b => exact ⟨b, rfl⟩
    refine ⟨Or.inl ?_, ?_, fun hg => ?_⟩
    · rw [buildConfig_data, hb1, hb2]
      simp
    · rw [buildConfig_data, hb1, hb2]
      simp [hb1, hmem]
    · exfalso
      simp at hmem
      rcases hg with hg | hg <;> rw [hg] at hmem <;>
        rcases hmem with hm | hm | hm <;> simp at hm

/-- Witness for C7: a get request with a truthy body attaches no body. -/
theorem c7_body_gating_witness :
    ((buildConfig ['u'] ['/'] ("GET") (some (Json.str "x")) [] []).data =
        some (Json.str "x") ∨
     (buildConfig ['u'] ['/'] ("GET") (some (Json.str "x")) [] []).data = none) ∧
    ((buildConfig ['u'] ['/'] ("GET") (some (Json.str "x")) [] []).data.isSome = true ↔
      (bodyTruthy (some (Json.str "x")) = true ∧
        toLowerStr ("GET") ∈ ["post", "put", "patch"])) ∧
    ((toLowerStr ("GET") = "get" ∨ toLowerStr ("GET") = "delete") →
      (buildConfig ['u'] ['/'] ("GET") (some (Json.str "x")) [] []).data = none) :=
  c7_body_gating ['u'] ['/'] ("GET") (some (Json.str "x")) [] []

/-- Counterexample to C7 as stated: a post request with a supplied falsy body
(the empty string) carries no body, although the claim requires a body for
every supplied body on post. -/
theorem c7_counterexample :
    (buildConfig ['u'] ['/'] ("POST") (some (Json.str "")) [] []).data = none ∧
    toLowerStr ("POST") ∈ ["post", "put", "patch"] ∧
    (some (Json.str "")).isSome = true := by
  refine ⟨rfl, by decide, rfl⟩

/-- One uptime update step never changes any entry's key or start time,
whatever the probe result. -/
theorem updateUptimes_startTime (m : List (String × UptimeEntry)) (name : String)
    (h : Bool) (now : Nat) :
    (updateUptimes m name h now).map (fun kv => (kv.1, kv.2.startTime)) =
      m.map (fun kv => (kv.1, kv.2.startTime)) := by
  cases h
  · rfl
  · simp only [updateUptimes, if_true, List.map_map]
    apply List.map_congr_left
    intro kv _
    by_cases hk : kv.1 = name <;> simp [hk, Function.comp]

/-- A healthy update step leaves all entries under a different key untouched. -/
theorem updateUptimes_other_keys (m : List (String × UptimeEntry)) (name : String)
    (now : Nat) :
    (updateUptimes m name true now).filter (fun kv => !(kv.1 == name)) =
      m.filter (fun kv => !(kv.1 == name)) := by
  induction m with
  | nil => rfl
  | cons kv rest ih =>
    simp only [updateUptimes, if_true, List.map_cons] at ih ⊢
    by_cases hk : kv.1 = name
    · simp [List.filter_cons, hk, ih]
    · simp [List.filter_cons, hk, ih]

/-- C9: across any sequence of completed health checks, every tracker entry
keeps the start time it was given at construction; an unhealthy check writes
nothing at all; and a healthy check can only touch the entry of the probed
service, leaving every other key's entry unchanged. -/
theorem c9_uptime_frame :
    (∀ (events : List (String × Bool × Nat)) (init : List (String × UptimeEntry)),
      ((events.foldl (fun m e => updateUptimes m e.1 e.2.1 e.2.2) init).map
          (fun kv => (kv.1, kv.2.startTime)) =
        init.map (fun kv => (kv.1, kv.2.startTime)))) ∧
    (∀ (m : List (String × UptimeEntry)) (name : String) (now : Nat),
      updateUptimes m name false now = m) ∧
    (∀ (m : List (String × UptimeEntry)) (name : String) (now : Nat),
      (updateUptimes m name true now).filter (fun kv => !(kv.1 == name)) =
        m.filter (fun kv => !(kv.1 == name))) := by
  refine ⟨?_, ?_, ?_⟩
  · intro events
    induction events with
    | nil => intro init; rfl
    | cons e es ih =>
      intro init
      rw [List.foldl_cons, ih, updateUptimes_startTime]
  · intro m name now
    rfl
  · exact updateUptimes_other_keys

/-- The parsed query parameters are attached to the outbound config exactly
when non-empty. -/
theorem buildConfig_params (serviceUrl path : List Char) (method : String)
    (body : Option Json) (headers : List (String × String))
    (query : List (String × Json)) :
    (buildConfig serviceUrl path method body headers query).params =
      if query.length > 0 then some query else none := rfl

/-- C10: when the original URL carries a non-empty query string and parsed
query parameters, the path handed to the forwarder embeds the raw query
string verbatim, the same parsed parameters are attached to the outbound
config, and the final outbound URL is the base URL plus that path plus an
ampersand plus the serialized parameters — the query appears twice. -/
theorem c10_query_duplication (serviceUrl rem qtail : List Char) (method : String)
    (body : Option Json) (headers : List (String × String))
    (params : List (String × Json)) (hps : params ≠ []) :
    outboundUrl (buildConfig serviceUrl (finalPath rem ('?' :: qtail)) method body
        headers params) =
      serviceUrl ++ finalPath rem ('?' :: qtail) ++ '&' :: serializeParams params ∧
    '?' ∈ finalPath rem ('?' :: qtail) ∧
    (rem ≠ [] → finalPath rem ('?' :: qtail) = rem ++ '?' :: qtail) ∧
    (buildConfig serviceUrl (finalPath rem ('?' :: qtail)) method body headers
        params).params = some params := by
  have hq : '?' ∈ finalPath rem ('?' :: qtail) := by
    by_cases h : rem = [] <;> simp [finalPath, h]
  have hlen : params.length > 0 := List.length_pos.mpr hps
  refine ⟨?_, hq, fun h => by simp [finalPath, h], ?_⟩
  · simp only [outboundUrl, buildConfig_params, buildConfig, if_pos hlen]
    have hc : (serviceUrl ++ finalPath rem ('?' :: qtail)).contains '?' = true := by
      have : '?' ∈ serviceUrl ++ finalPath rem ('?' :: qtail) :=
        List.mem_append_right _ hq
      simpa [List.contains] using this
    rw [hc]
    simp
  · rw [buildConfig_params, if_pos hlen]

/-- Witness for C10: a request for /123 with query a=1 against the course
service produces an outbound URL carrying the query twice. -/
theorem c10_query_duplication_witness :
    outboundUrl (buildConfig ("http://course-service:3002".data)
        (finalPath ("/123".data) ('?' :: ("a=1".data))) ("GET") none []
        [("a", Json.str "1")]) =
      ("http://course-service:3002".data) ++ finalPath ("/123".data) ('?' :: ("a=1".data)) ++
        '&' :: serializeParams [("a", Json.str "1")] ∧
    '?' ∈ finalPath ("/123".data) ('?' :: ("a=1".data)) ∧
    (("/123".data) ≠ [] →
      finalPath ("/123".data) ('?' :: ("a=1".data)) = ("/123".data) ++ '?' :: ("a=1".data)) ∧
    (buildConfig ("http://course-service:3002".data)
        (finalPath ("/123".data) ('?' :: ("a=1".data))) ("GET") none []
        [("a", Json.str "1")]).params = some [("a", Json.str "1")] :=
  c10_query_duplication ("http://course-service:3002".data) ("/123".data) ("a=1".data)
    ("GET") none [] [("a", Json.str "1")] (by simp)

end Skillbase
